import Mathlib

/-!
Verification of the query-orchestration core of the regulatory-compliance
assistant (FastAPI application in app/api.py with the RAG, Sonar and Hint
modules).  Python code is shallowly embedded: strings are lists of
characters, Python exceptions become an explicit error type threaded
through `Except`, the outcome of each upstream network call is an input of
the embedded function, and the async event generator becomes a pure
function from the request plus those outcomes to the list of emitted
events.
-/

namespace RCA

/-! ## Python string primitives -/

/-- ASCII lower-casing, as `str.lower` acts on the ASCII strings used here. -/
def pyLowerChar (c : Char) : Char :=
  if 'A' ≤ c ∧ c ≤ 'Z' then Char.ofNat (c.toNat + 32) else c

/-- `str.lower` over the character list of a string. -/
def pyLower (s : List Char) : List Char := s.map pyLowerChar

/-- The characters stripped by `str.strip()` (ASCII whitespace). -/
def pyIsSpace (c : Char) : Bool :=
  c = ' ' || c = '\t' || c = '\n' || c = '\r' || c = '\x0b' || c = '\x0c'

/-- `not s.strip()`: true when the string is empty or whitespace-only. -/
def pyBlank (s : List Char) : Bool := s.all pyIsSpace

/-- Does the second list occur at the head of the first argument list?
First argument is the needle, second the haystack. -/
def leadsWith : List Char → List Char → Bool
  | [], _ => true
  | _ :: _, [] => false
  | n :: ns, h :: hs => (n = h) && leadsWith ns hs

/-- Python substring containment `needle in hay`. -/
def strContains : List Char → List Char → Bool
  | [], needle => needle.isEmpty
  | h :: rest, needle => leadsWith needle (h :: rest) || strContains rest needle

/-- Python `a or b` over an optional string, where `None` and the empty
string are falsy. -/
def pyOrStr (a : Option String) (b : String) : String :=
  match a with
  | some s => if s.isEmpty then b else s
  | none => b

/-- Drop leading characters satisfying `pyIsSpace`. -/
def dropSpaceLeft : List Char → List Char
  | [] => []
  | c :: rest => if pyIsSpace c then dropSpaceLeft rest else c :: rest

/-- Python `str.strip()`. -/
def pyStrip (s : String) : String :=
  ⟨dropSpaceLeft ((dropSpaceLeft s.data.reverse).reverse)⟩

/-! ## Python exceptions -/

/-- The exception classes that appear in the embedded code paths. -/
inductive PyErr where
  | clientError (msg : String)
  | timeoutError (msg : String)
  | typeError (msg : String)
  | runtimeError (msg : String)
  | otherError (msg : String)
deriving DecidableEq

/-- `str(e)` for an exception value. -/
def pyErrStr : PyErr → String
  | .clientError m => m
  | .timeoutError m => m
  | .typeError m => m
  | .runtimeError m => m
  | .otherError m => m

/-! ## Sonar module: citation records and classification
(`app/sonar_module.py`) -/

/-- A normalized citation record as built by
`SonarModule.fetch_perplexity_sonar_citations`.  The `type` value comes
from `_determine_citation_type`, which in Python can in principle return
`None`, hence the `Option`. -/
structure Citation where
  title : String
  date : Option String
  url : String
  ctype : Option String
deriving DecidableEq

/-- The SEC keyword test of `_determine_citation_type`
(`any(keyword in title_lower for keyword in ['sec', 'securities', 'exchange'])`). -/
def ctSecKw (tl : List Char) : Bool :=
  strContains tl "sec".data || strContains tl "securities".data ||
    strContains tl "exchange".data

/-- The GDPR keyword test. -/
def ctGdprKw (tl : List Char) : Bool :=
  strContains tl "gdpr".data || strContains tl "general data protection".data

/-- The SOX keyword test. -/
def ctSoxKw (tl : List Char) : Bool :=
  strContains tl "sox".data || strContains tl "sarbanes".data ||
    strContains tl "oxley".data

/-- The compliance keyword test. -/
def ctComplianceKw (tl : List Char) : Bool :=
  strContains tl "regulation".data || strContains tl "compliance".data ||
    strContains tl "legal".data

/-- The `sec.gov` domain test on the lower-cased url. -/
def urlSecGov (ul : List Char) : Bool := strContains ul "sec.gov".data

/-- The `europa.eu` domain test on the lower-cased url. -/
def urlEuropa (ul : List Char) : Bool := strContains ul "europa.eu".data

/-- `SonarModule._determine_citation_type`, translated branch for branch.
The implicit-`None` path of the Python function (the inner `if`/`elif` of
the domain branch falling through) is the final `none` of that branch. -/
def determine_citation_type (title url : String) : Option String :=
  let tl := pyLower title.data
  let ul := pyLower url.data
  if ctSecKw tl then some "SEC"
  else if ctGdprKw tl then some "GDPR"
  else if ctSoxKw tl then some "SOX"
  else if urlSecGov ul || urlEuropa ul then
    if urlSecGov ul then some "SEC"
    else if urlEuropa ul then some "GDPR"
    else none
  else if ctComplianceKw tl then some "Compliance"
  else some "External Citation"

/-- Modelled from the spec wording of the classifier (section 4.2): an
ordered rule table, first match wins, default `External Citation`.  Used
only to compare against `determine_citation_type`. -/
def citation_type_rules : List ((List Char → List Char → Bool) × String) :=
  [ (fun tl _ => ctSecKw tl, "SEC"),
    (fun tl _ => ctGdprKw tl, "GDPR"),
    (fun tl _ => ctSoxKw tl, "SOX"),
    (fun _ ul => urlSecGov ul, "SEC"),
    (fun _ ul => urlEuropa ul, "GDPR"),
    (fun tl _ => ctComplianceKw tl, "Compliance") ]

/-- First matching rule of an ordered rule table. -/
def first_matching_type :
    List ((List Char → List Char → Bool) × String) → List Char → List Char → String
  | [], _, _ => "External Citation"
  | r :: rest, tl, ul => if r.1 tl ul then r.2 else first_matching_type rest tl ul

/-- The spec's classifier: lower-case title and url, then first match over
the ordered rule table. -/
def citation_type_spec (title url : String) : String :=
  first_matching_type citation_type_rules (pyLower title.data) (pyLower url.data)

/-! ## Regular-expression scans of `fetch_perplexity_sonar_citations`

The module applies `re.findall` with five concrete patterns.  Each
pattern is embedded as a matcher that, at a given position, returns the
greedily matched text and the remaining input (with the same backtracking
behaviour the Python `re` engine has on that pattern). -/

/-- Match a literal case-insensitively (the literal is given lower-case);
returns the consumed input characters and the rest. -/
def matchLitCI : List Char → List Char → Option (List Char × List Char)
  | [], s => some ([], s)
  | _ :: _, [] => none
  | l :: ls, c :: cs =>
    if pyLowerChar c = l then
      match matchLitCI ls cs with
      | some (m, r) => some (c :: m, r)
      | none => none
    else none

/-- Match a literal case-sensitively. -/
def matchLitCS : List Char → List Char → Option (List Char × List Char)
  | [], s => some ([], s)
  | _ :: _, [] => none
  | l :: ls, c :: cs =>
    if c = l then
      match matchLitCS ls cs with
      | some (m, r) => some (c :: m, r)
      | none => none
    else none

/-- An optional single character satisfying `p`, followed by `cont`
(greedy with backtracking): try consuming the character first, fall back
to the empty match.  This is the `re` semantics of `X?` ahead of the rest
of the pattern. -/
def optCharMatch (p : Char → Bool)
    (cont : List Char → Option (List Char × List Char)) :
    List Char → Option (List Char × List Char)
  | [] => cont []
  | c :: rest =>
    if p c then
      match cont rest with
      | some (m, r) => some (c :: m, r)
      | none => cont (c :: rest)
    else cont (c :: rest)

/-- The `[- ]?` piece of the citation patterns. -/
def optSep (cont : List Char → Option (List Char × List Char)) :
    List Char → Option (List Char × List Char) :=
  optCharMatch (fun c => c = '-' || c = ' ') cont

/-- Longest run of characters satisfying `p` (the `X*` of a final
character class). -/
def takeWhileSplit (p : Char → Bool) : List Char → List Char × List Char
  | [] => ([], [])
  | c :: rest =>
    if p c then
      let d := takeWhileSplit p rest
      (c :: d.1, d.2)
    else ([], c :: rest)

/-- `\d+`: at least one digit, greedy. -/
def digitsPlus (s : List Char) : Option (List Char × List Char) :=
  match takeWhileSplit Char.isDigit s with
  | ([], _) => none
  | (d, r) => some (d, r)

/-- `[A-Z]+` under `re.IGNORECASE`: at least one ASCII letter, greedy. -/
def lettersPlus (s : List Char) : Option (List Char × List Char) :=
  match takeWhileSplit Char.isAlpha s with
  | ([], _) => none
  | (d, r) => some (d, r)

/-- The trailing `[- ]?\d*` of the SEC pattern.  It always succeeds: the
greedy optional separator is kept even when no digits follow, because
`\d*` accepts the empty string. -/
def sepDigitsStar : List Char → List Char × List Char
  | [] => ([], [])
  | c :: rest =>
    if c = '-' || c = ' ' then
      let d := takeWhileSplit Char.isDigit rest
      (c :: d.1, d.2)
    else takeWhileSplit Char.isDigit (c :: rest)

/-- Pattern `SEC[- ]?\d+[- ]?\d*` with `re.IGNORECASE`. -/
def matchSEC (s : List Char) : Option (List Char × List Char) :=
  match matchLitCI "sec".data s with
  | none => none
  | some (a, r1) =>
    match optSep digitsPlus r1 with
    | none => none
    | some (b, r2) =>
      let d := sepDigitsStar r2
      some (a ++ b ++ d.1, d.2)

/-- Pattern `GDPR[- ]?Article[- ]?\d+` with `re.IGNORECASE`. -/
def matchGDPR (s : List Char) : Option (List Char × List Char) :=
  match matchLitCI "gdpr".data s with
  | none => none
  | some (a, r1) =>
    match optSep (fun t =>
        match matchLitCI "article".data t with
        | none => none
        | some (b, r2) =>
          match optSep digitsPlus r2 with
          | none => none
          | some (c, r3) => some (b ++ c, r3)) r1 with
    | none => none
    | some (bc, r) => some (a ++ bc, r)

/-- Pattern `SOX[- ]?Section[- ]?\d+` with `re.IGNORECASE`. -/
def matchSOX (s : List Char) : Option (List Char × List Char) :=
  match matchLitCI "sox".data s with
  | none => none
  | some (a, r1) =>
    match optSep (fun t =>
        match matchLitCI "section".data t with
        | none => none
        | some (b, r2) =>
          match optSep digitsPlus r2 with
          | none => none
          | some (c, r3) => some (b ++ c, r3)) r1 with
    | none => none
    | some (bc, r) => some (a ++ bc, r)

/-- Pattern `Regulation[- ]?[A-Z]+` with `re.IGNORECASE`. -/
def matchRegulation (s : List Char) : Option (List Char × List Char) :=
  match matchLitCI "regulation".data s with
  | none => none
  | some (a, r1) =>
    match optSep lettersPlus r1 with
    | none => none
    | some (b, r) => some (a ++ b, r)

/-- Pattern `https?://[^\s\]\)]+` (case-sensitive, used by the URL
fallback branch). -/
def matchURL (s : List Char) : Option (List Char × List Char) :=
  match matchLitCS "http".data s with
  | none => none
  | some (a, r1) =>
    match optCharMatch (fun c => c = 's') (fun t =>
        match matchLitCS "://".data t with
        | none => none
        | some (b, r2) =>
          match takeWhileSplit
              (fun c => !(pyIsSpace c || c = ']' || c = ')')) r2 with
          | ([], _) => none
          | (body, r3) => some (b ++ body, r3)) r1 with
    | none => none
    | some (b, r) => some (a ++ b, r)

/-- `re.findall` driver: scan left to right, at each position try the
matcher; on success record the match and resume after it, otherwise
advance one character.  Fuel is the input length; every step consumes at
least one character. -/
def findAllFrom (m : List Char → Option (List Char × List Char)) :
    Nat → List Char → List (List Char)
  | 0, _ => []
  | _ + 1, [] => []
  | fuel + 1, c :: rest =>
    match m (c :: rest) with
    | some (mt, r) =>
      if mt.isEmpty then findAllFrom m fuel rest
      else mt :: findAllFrom m fuel r
    | none => findAllFrom m fuel rest

/-- `re.findall pattern s`. -/
def findAll (m : List Char → Option (List Char × List Char))
    (s : List Char) : List (List Char) :=
  findAllFrom m s.length s

/-! ## Sonar module: response parsing, fetch and analyze -/

/-- A raw citation entry of the upstream response (`tool_outputs` entries
may carry `title` or `name`; `sources` entries carry `title`).  Absent
keys are `none`. -/
structure RawCitation where
  title : Option String
  name : Option String
  url : Option String
  date : Option String
deriving DecidableEq

/-- One element of `message['tool_outputs']`; its `citations` key may be
absent. -/
structure ToolOutput where
  citations : Option (List RawCitation)
deriving DecidableEq

/-- `data['choices'][0]['message']`: the keys inspected by the parser.
`none` models an absent key. -/
structure SonarMessage where
  tool_outputs : Option (List ToolOutput)
  sources : Option (List RawCitation)
  content : Option String
deriving DecidableEq

/-- The upstream response body; an absent or falsy `choices` key is the
empty list. -/
structure SonarData where
  choices : List SonarMessage
deriving DecidableEq

/-- Normalization of one `tool_outputs` citation entry. -/
def toolOutputCitation (c : RawCitation) : Citation :=
  let t := pyOrStr c.title (pyOrStr c.name "Untitled Citation")
  let u := pyOrStr c.url "#"
  { title := t, date := c.date, url := u, ctype := determine_citation_type t u }

/-- The `tool_outputs` branch: every `citations` list of every tool
output, in order. -/
def toolOutputCitations (tos : List ToolOutput) : List Citation :=
  tos.foldl (fun acc o =>
    match o.citations with
    | none => acc
    | some cs => acc ++ cs.map toolOutputCitation) []

/-- The `sources` branch. -/
def sourceCitations (srcs : List RawCitation) : List Citation :=
  srcs.map (fun c =>
    let t := pyOrStr c.title "Untitled Citation"
    let u := pyOrStr c.url "#"
    { title := t, date := c.date, url := u, ctype := determine_citation_type t u })

/-- The URL-fallback branch: first five literal URLs of the free text,
titled with a truncated link label. -/
def urlFallbackCitations (content : List Char) : List Citation :=
  ((findAll matchURL content).take 5).map (fun u =>
    { title := "Link from Perplexity: " ++ ⟨u.take 50⟩ ++ "...",
      date := none,
      url := ⟨u⟩,
      ctype := determine_citation_type "" ⟨u⟩ })

/-- The citation list produced by the three-way `if`/`elif`/`elif` over
the message keys (`tool_outputs`, then `sources`, then a `content` that
contains `"http"`).  Key presence decides the branch, not truthiness. -/
def branch_citations (msg : SonarMessage) : List Citation :=
  match msg.tool_outputs with
  | some tos => toolOutputCitations tos
  | none =>
    match msg.sources with
    | some srcs => sourceCitations srcs
    | none =>
      match msg.content with
      | some c => if strContains c.data "http".data then urlFallbackCitations c.data else []
      | none => []

/-- The synthetic record built for one regulatory-reference match. -/
def regRefRecord (m : List Char) : Citation :=
  { title := "Regulatory Reference: " ++ ⟨m⟩,
    date := none,
    url := "https://www.sec.gov/search?query=" ++ ⟨m.map (fun c => if c = ' ' then '+' else c)⟩,
    ctype := some "Regulatory Reference" }

/-- Append one scan match unless it is already contained (case-insensitive
substring) in some existing record title. -/
def addRegRef (acc : List Citation) (m : List Char) : List Citation :=
  if acc.any (fun cite => strContains (pyLower cite.title.data) (pyLower m)) then acc
  else acc ++ [regRefRecord m]

/-- The four `citation_patterns` of the scan, in source order. -/
def citation_scan_matchers : List (List Char → Option (List Char × List Char)) :=
  [matchSEC, matchGDPR, matchSOX, matchRegulation]

/-- The regulatory-reference scan: for each pattern in order, every
`findall` match is deduplicated against the accumulated records and
appended. -/
def appendRegulatoryRefs (existing : List Citation) (content : List Char) :
    List Citation :=
  citation_scan_matchers.foldl
    (fun acc m => (findAll m content).foldl addRegRef acc) existing

/-- The full parse of `data['choices'][0]['message']`: branch citations,
then the unconditional regulatory-reference scan over
`message.get('content', '')`. -/
def parseSonarMessage (msg : SonarMessage) : List Citation :=
  appendRegulatoryRefs (branch_citations msg) (msg.content.getD "").data

/-- `fetch_perplexity_sonar_citations` after the initialization check: the
API call outcome is an input; every raised exception (network error,
timeout, anything else) is caught inside the function and degrades to the
citations accumulated so far, which is the empty list. -/
def fetch_perplexity_sonar_citations (api : Except PyErr SonarData) :
    List Citation :=
  match api with
  | .error _ => []
  | .ok data =>
    match data.choices with
    | [] => []
    | msg :: _ => parseSonarMessage msg

/-- `fetch_perplexity_sonar_citations` with its `initialized` guard, which
raises `RuntimeError` past the boundary when the module is not
initialized. -/
def fetch_checked (initialized : Bool) (api : Except PyErr SonarData) :
    Except PyErr (List Citation) :=
  if !initialized then .error (.runtimeError "Sonar module not initialized")
  else .ok (fetch_perplexity_sonar_citations api)

/-- The analysis dictionary returned by `SonarModule.analyze_query`. -/
structure SonarAnalysis where
  query : String
  citations_found : Nat
  citations : List Citation
  analysis_summary : String
  citation_types : List String
  error : Option String
deriving DecidableEq

/-- First-occurrence deduplication, standing in for Python's
`list(set(...))` (whose element order is unspecified; no claim depends on
that order). -/
def dedupFirst : List String → List String
  | [] => []
  | x :: rest => if (dedupFirst rest).contains x then dedupFirst rest else x :: dedupFirst rest

/-- The success dictionary of `analyze_query`; note it has no `error`
key. -/
def sonar_success_analysis (q : String) (cs : List Citation) : SonarAnalysis :=
  { query := q,
    citations_found := cs.length,
    citations := cs,
    analysis_summary := "Found " ++ toString cs.length ++ " relevant compliance citations",
    citation_types := dedupFirst (cs.map (fun c => c.ctype.getD "Unknown")),
    error := none }

/-- The `except` dictionary of `analyze_query`, the only place an `error`
key is produced. -/
def sonar_error_analysis (q : String) (e : PyErr) : SonarAnalysis :=
  { query := q,
    citations_found := 0,
    citations := [],
    analysis_summary := "Error occurred during analysis",
    citation_types := [],
    error := some (pyErrStr e) }

/-- `SonarModule.analyze_query`: initialization guard outside the `try`,
then the fetch; any exception from the `try` body builds the error
dictionary instead of raising. -/
def analyze_query (initialized : Bool) (q : String)
    (api : Except PyErr SonarData) : Except PyErr SonarAnalysis :=
  if !initialized then .error (.runtimeError "Sonar module not initialized")
  else
    match fetch_checked initialized api with
    | .error e => .ok (sonar_error_analysis q e)
    | .ok cs => .ok (sonar_success_analysis q cs)

/-! ## RAG module (`app/rag_module.py`) -/

/-- One Pinecone match: the metadata keys read by `query_rag_system`
(absent keys are `none`) and the similarity score (floats are abstracted
as rationals; no claim inspects score values). -/
structure RagMatch where
  metaTitle : Option String
  metaExcerpt : Option String
  metaSourceUrl : Option String
  metaStandard : Option String
  metaArticleNumber : Option String
  metaDocumentType : Option String
  score : Rat
deriving DecidableEq

/-- An internal citation dictionary built by `query_rag_system`. -/
structure InternalCitation where
  title : String
  excerpt : String
  source_url : String
  standard : String
  article_number : String
  document_type : String
  score : Rat
deriving DecidableEq

/-- The per-match dictionary construction of `query_rag_system`. -/
def ragCitationOfMatch (m : RagMatch) : InternalCitation :=
  { title := m.metaTitle.getD "N/A",
    excerpt := m.metaExcerpt.getD "No excerpt available.",
    source_url := m.metaSourceUrl.getD "N/A",
    standard := m.metaStandard.getD "unknown",
    article_number := m.metaArticleNumber.getD "N/A",
    document_type := m.metaDocumentType.getD "general",
    score := m.score }

/-- `RAGModule.query_rag_system`.  This is a plain synchronous function in
the source (an ordinary `def`, not `async def`): it returns the empty list
when the module is uninitialized, when the query is blank, and when the
embedding or vector search raises; otherwise the mapped matches.  It never
raises. -/
def query_rag_system (initialized : Bool) (q : String)
    (backend : Except PyErr (List RagMatch)) : List InternalCitation :=
  if !initialized then []
  else if pyBlank q.data then []
  else
    match backend with
    | .error _ => []
    | .ok ms => ms.map ragCitationOfMatch

/-! ## Hint module (`app/hint_module.py`) -/

/-- The rule-table triplets of `HintModule.get_hints`, verbatim. -/
def gdpr_breach_hints : List String :=
  [ "Implement automated breach detection systems",
    "Create 72-hour notification templates for supervisory authorities",
    "Develop breach assessment and documentation procedures" ]

def gdpr_transfer_hints : List String :=
  [ "Review adequacy decisions and Standard Contractual Clauses (SCCs)",
    "Implement Binding Corporate Rules (BCRs) for intra-group transfers",
    "Conduct Transfer Impact Assessments (TIAs) for third countries" ]

def gdpr_generic_hints : List String :=
  [ "Map personal data flows and processing activities (Article 30 records)",
    "Conduct Data Protection Impact Assessments (DPIAs) for high-risk processing",
    "Implement privacy by design and by default measures" ]

def sec_filing_hints : List String :=
  [ "Review SEC Form 10-K filing requirements",
    "Consider materiality thresholds for disclosure",
    "Consult with legal counsel for securities compliance" ]

def sox_reporting_hints : List String :=
  [ "Implement COSO framework for internal controls design",
    "Document walkthrough procedures for key business processes",
    "Establish quarterly management assessment testing protocols" ]

def sox_controls_hints : List String :=
  [ "Map IT general controls (ITGC) and application controls",
    "Create SOD (Segregation of Duties) matrices and monitoring",
    "Implement continuous monitoring using GRC platforms" ]

def fallback_hints : List String :=
  [ "Review relevant compliance documentation",
    "Consider consulting with legal or compliance teams",
    "Check for recent regulatory updates" ]

/-- Keyword guard of the GDPR category. -/
def gdprCond (ql : List Char) : Bool :=
  strContains ql "gdpr".data || strContains ql "data protection".data ||
    strContains ql "privacy".data

/-- Keyword guard of the SEC category. -/
def secCond (ql : List Char) : Bool :=
  strContains ql "sec".data || strContains ql "securities".data ||
    strContains ql "filing".data

/-- Keyword guard of the SOX category. -/
def soxCond (ql : List Char) : Bool :=
  strContains ql "sox".data || strContains ql "sarbanes".data ||
    strContains ql "internal controls".data

/-- The triplet contributed by the GDPR category (breach, transfer or
generic sub-table). -/
def gdpr_block (ql : List Char) : List String :=
  if strContains ql "breach".data then gdpr_breach_hints
  else if strContains ql "transfer".data || strContains ql "cross-border".data then
    gdpr_transfer_hints
  else gdpr_generic_hints

/-- The triplet contributed by the SOX category (reporting or controls
sub-table). -/
def sox_block (ql : List Char) : List String :=
  if strContains ql "reporting".data || strContains ql "financial".data then
    sox_reporting_hints
  else sox_controls_hints

/-- `HintModule.get_hints` after its initialization guard: the three
category blocks extend the list in source order, the fallback triplet
replaces an empty list, and the result is truncated to the first three. -/
def get_hints (q : String) : List String :=
  let ql := pyLower q.data
  let hints :=
    (if gdprCond ql then gdpr_block ql else [])
    ++ (if secCond ql then sec_filing_hints else [])
    ++ (if soxCond ql then sox_block ql else [])
  let hints2 := if hints.isEmpty then fallback_hints else hints
  hints2.take 3

/-- `get_hints` with the `initialized` guard that raises `RuntimeError`. -/
def get_hints_checked (initialized : Bool) (q : String) :
    Except PyErr (List String) :=
  if !initialized then .error (.runtimeError "Hint module not initialized")
  else .ok (get_hints q)

/-- `HintModule.generate_next_step_hint` after its initialization guard.
The generation API outcome is an input: `.ok (some content)` is a response
with a non-empty `choices`, `.ok none` a response without one, `.error` a
raised exception; the function's own `try`/`except` turns every raise into
the fixed fallback sentence, so it always returns a string.  The prompt
construction is pure string building and does not influence the returned
value. -/
def generate_next_step_hint (initialized : Bool)
    (api : Except PyErr (Option String)) : Except PyErr String :=
  if !initialized then .error (.runtimeError "Hint module not initialized")
  else .ok (match api with
    | .error _ =>
      "Could not generate a next step hint at this time. Please review the provided citations."
    | .ok (some content) => pyStrip content
    | .ok none =>
      "Review the provided citations and consider consulting relevant documentation for more details.")

/-- The dictionary returned by `get_contextual_hints`; `error` is only
present in the (unreachable) `except` branch. -/
structure HintResponse where
  basic_hints : List String
  next_step_hint : Option String
  query : String
  error : Option String
deriving DecidableEq

/-- `HintModule.get_contextual_hints`.  The second component records
whether `generate_next_step_hint` (the model call) was invoked: it is
invoked exactly when `internal_cites or external_cites` is truthy, i.e.
when at least one of the two lists is non-empty. -/
def get_contextual_hints (initialized : Bool) (q : String)
    (internal : List InternalCitation) (external : List Citation)
    (api : Except PyErr (Option String)) :
    Except PyErr (HintResponse × Bool) :=
  if !initialized then .error (.runtimeError "Hint module not initialized")
  else
    let basic := get_hints q
    if !internal.isEmpty || !external.isEmpty then
      match generate_next_step_hint initialized api with
      | .ok h =>
        .ok ({ basic_hints := basic, next_step_hint := some h, query := q,
               error := none }, true)
      | .error e =>
        -- the `except` branch of the source; unreachable because
        -- `generate_next_step_hint` never raises once initialized
        .ok ({ basic_hints := get_hints q,
               next_step_hint := some "Could not generate contextual hint at this time.",
               query := q, error := some (pyErrStr e) }, true)
    else
      .ok ({ basic_hints := basic, next_step_hint := none, query := q,
             error := none }, false)

/-! ## Orchestrator (`app/api.py`, `/chat` and `/query` endpoints) -/

/-- Decidable equality for `Except`, needed to evaluate the embedded
functions on concrete inputs. -/
instance {ε α : Type} [DecidableEq ε] [DecidableEq α] :
    DecidableEq (Except ε α) := fun a b =>
  match a, b with
  | .ok x, .ok y =>
    if h : x = y then .isTrue (by rw [h]) else .isFalse (by simp [h])
  | .error x, .error y =>
    if h : x = y then .isTrue (by rw [h]) else .isFalse (by simp [h])
  | .ok _, .error _ => .isFalse (by simp)
  | .error _, .ok _ => .isFalse (by simp)

/-- The request body (pydantic model `Query`). -/
structure Query where
  text : String
  use_rag : Bool
  use_sonar : Bool
  use_hints : Bool
  load_sample_data : Bool
deriving DecidableEq

/-- The per-request environment: module readiness flags and the outcome of
each upstream interaction, all fixed inputs of one request. -/
structure Env where
  rag_initialized : Bool
  sonar_initialized : Bool
  hint_initialized : Bool
  rag_backend : Except PyErr (List RagMatch)
  sonar_api : Except PyErr SonarData
  hint_api : Except PyErr (Option String)
  sample_load : Except PyErr Unit
deriving DecidableEq

/-- The aggregate count summary of the terminal payload. -/
structure Summary where
  internal_count : Nat
  external_count : Nat
  total_citations : Nat
deriving DecidableEq

/-- The terminal `status: "completed"` payload of the stream. -/
structure FinalPayload where
  query : String
  internal_citations : List InternalCitation
  external_citations : List Citation
  next_step_hint : Option String
  summary : Summary
deriving DecidableEq

/-- The SSE events emitted by `chat_endpoint.event_generator`, one
constructor per JSON shape. -/
inductive Event where
  | sampleLoaded
  | sampleLoadFailed (err : String)
  | internalRetrieved (count : Nat)
  | externalRetrieved (count : Nat)
  | taskFailed (task : String) (details : String)
  | hintGenerated
  | hintFailed (err : String)
  | completed (payload : FinalPayload)
  | fatal (details : String)
deriving DecidableEq

/-- What each entry of the `tasks` list actually holds.  Crucially,
`rag.query_rag_system(user_query)` is a plain synchronous call, so its
entry is the already computed list of citations — not an awaitable —
whereas `sonar.analyze_query(user_query)` is a coroutine. -/
inductive TaskItem where
  | ragValue (cites : List InternalCitation)
  | sonarCoro (analysis : Except PyErr SonarAnalysis)
deriving DecidableEq

/-- Whether `asyncio.ensure_future` accepts the entry. -/
def TaskItem.isAwaitable : TaskItem → Bool
  | .ragValue _ => false
  | .sonarCoro _ => true

/-- One entry of the `asyncio.gather(..., return_exceptions=True)` result
list. -/
inductive TaskResult where
  | ragList (cites : List InternalCitation)
  | sonarDict (a : SonarAnalysis)
  | exn (e : PyErr)
deriving DecidableEq

/-- The exact CPython message of `asyncio.ensure_future` for a
non-awaitable argument. -/
def gatherTypeErrorMsg : String :=
  "An asyncio.Future, a coroutine or an awaitable is required"

/-- `asyncio.gather(*tasks, return_exceptions=True)`: `ensure_future`
raises `TypeError` for any non-awaitable argument; otherwise each
coroutine settles and a raised exception is returned as a result value. -/
def asyncio_gather (tasks : List TaskItem) : Except PyErr (List TaskResult) :=
  if tasks.all TaskItem.isAwaitable then
    .ok (tasks.map (fun t =>
      match t with
      | .ragValue cs => .ragList cs
      | .sonarCoro (.ok a) => .sonarDict a
      | .sonarCoro (.error e) => .exn e))
  else .error (.typeError gatherTypeErrorMsg)

/-- The `tasks` list construction of the event generator: the rag entry
first (when `use_rag` and the module is initialized), then the sonar
entry. -/
def build_tasks (q : Query) (env : Env) : List (String × TaskItem) :=
  (if q.use_rag && env.rag_initialized then
    [("rag", TaskItem.ragValue (query_rag_system true q.text env.rag_backend))]
   else [])
  ++ (if q.use_sonar && env.sonar_initialized then
    [("sonar", TaskItem.sonarCoro (analyze_query true q.text env.sonar_api))]
   else [])

/-- The optional sample-data prefix events. -/
def sample_events (q : Query) (env : Env) : List Event :=
  if q.load_sample_data && env.rag_initialized then
    match env.sample_load with
    | .ok _ => [Event.sampleLoaded]
    | .error e => [Event.sampleLoadFailed (pyErrStr e)]
  else []

/-- The result-processing loop: per settled task, in list order, either a
task-error event (`isinstance(result, Exception)`) or the corresponding
result assignment and progress event.  Returns the emitted events and the
final `internal_citations` / `external_citations` values. -/
def process_results : List (String × TaskResult) → List InternalCitation →
    List Citation → List Event × List InternalCitation × List Citation
  | [], ic, ec => ([], ic, ec)
  | (tname, r) :: rest, ic, ec =>
    match r with
    | .exn e =>
      let d := process_results rest ic ec
      (Event.taskFailed tname (pyErrStr e) :: d.1, d.2)
    | .ragList cs =>
      if tname = "rag" then
        -- `internal_citations = result or []`: an empty list stays empty
        let d := process_results rest cs ec
        (Event.internalRetrieved cs.length :: d.1, d.2)
      else
        -- `task_type == "sonar"` with a non-dict result: external set empty
        let d := process_results rest ic []
        (Event.externalRetrieved 0 :: d.1, d.2)
    | .sonarDict a =>
      if tname = "rag" then
        -- unreachable pairing: tasks are built with matching tags
        let d := process_results rest ic ec
        (Event.internalRetrieved ic.length :: d.1, d.2)
      else
        let d := process_results rest ic a.citations
        (Event.externalRetrieved a.citations.length :: d.1, d.2)

/-- Task construction, gather and result processing, shared verbatim by
the `/chat` and `/query` paths of the source.  A `TypeError` from
`asyncio.gather` (raised whenever a rag task is present) propagates as the
error case. -/
def gather_step (q : Query) (env : Env) :
    Except PyErr (List Event × List InternalCitation × List Citation) :=
  let tasks := build_tasks q env
  if tasks.isEmpty then .ok ([], [], [])
  else
    match asyncio_gather (tasks.map Prod.snd) with
    | .error e => .error e
    | .ok results => .ok (process_results ((tasks.map Prod.fst).zip results) [] [])

/-- The hint phase of the event generator: events emitted and the
`next_step_hint` value of the final payload. -/
def hint_step (q : Query) (env : Env) (ic : List InternalCitation)
    (ec : List Citation) : List Event × Option String :=
  if q.use_hints && env.hint_initialized then
    match get_contextual_hints true q.text ic ec env.hint_api with
    | .ok (resp, _) => ([Event.hintGenerated], resp.next_step_hint)
    | .error e =>
      ([Event.hintFailed (pyErrStr e)], some "Could not generate hints at this time.")
  else ([], none)

/-- `chat_endpoint.event_generator`: the full event sequence of one
accepted request.  An exception escaping the `try` body (the gather
`TypeError`) ends the stream with the single fatal event after whatever
was already yielded. -/
def event_generator (q : Query) (env : Env) : List Event :=
  match gather_step q env with
  | .error e => sample_events q env ++ [Event.fatal (pyErrStr e)]
  | .ok (tevs, ic, ec) =>
    let hs := hint_step q env ic ec
    sample_events q env ++ tevs ++ hs.1 ++
      [Event.completed
        { query := q.text, internal_citations := ic, external_citations := ec,
          next_step_hint := hs.2,
          summary := { internal_count := ic.length, external_count := ec.length,
                       total_citations := ic.length + ec.length } }]

/-- An HTTP-level rejection (FastAPI `HTTPException`). -/
structure HttpError where
  status_code : Nat
  detail : String
deriving DecidableEq

/-- `POST /chat`: the blank-query check rejects with HTTP 400 before the
generator exists, so before any task is created and any event is
emitted. -/
def chat_endpoint (q : Query) (env : Env) : Except HttpError (List Event) :=
  if pyBlank q.text.data then
    .error { status_code := 400, detail := "Query text cannot be empty" }
  else .ok (event_generator q env)

/-- The `hints` field of the `/query` response: an empty dict when hints
were not requested, the hint dictionary, or `{"error": ...}`. -/
inductive HintsField where
  | emptyDict
  | resp (r : HintResponse)
  | errDict (e : String)
deriving DecidableEq

/-- The `/query` response body. -/
structure QueryResponse where
  query : String
  internal_citations : List InternalCitation
  external_citations : List Citation
  hints : HintsField
  summary : Summary
deriving DecidableEq

/-- `POST /query` (`process_query`): same blank-query rejection and the
same orchestration; an escaping exception becomes HTTP 500. -/
def process_query (q : Query) (env : Env) : Except HttpError QueryResponse :=
  if pyBlank q.text.data then
    .error { status_code := 400, detail := "Query text cannot be empty" }
  else
    match gather_step q env with
    | .error e => .error { status_code := 500, detail := pyErrStr e }
    | .ok (_, ic, ec) =>
      let hintsField :=
        if q.use_hints && env.hint_initialized then
          match get_contextual_hints true q.text ic ec env.hint_api with
          | .ok (r, _) => HintsField.resp r
          | .error e => HintsField.errDict (pyErrStr e)
        else HintsField.emptyDict
      .ok { query := q.text, internal_citations := ic, external_citations := ec,
            hints := hintsField,
            summary := { internal_count := ic.length, external_count := ec.length,
                         total_citations := ic.length + ec.length } }

/-! ## Event classification -/

/-- Terminal events: the completed payload and the fatal error event. -/
def Event.isTerminal : Event → Bool
  | .completed _ => true
  | .fatal _ => true
  | _ => false

/-- Intermediate events produced for the Retrieval (rag) task. -/
def Event.isRagIntermediate : Event → Bool
  | .internalRetrieved _ => true
  | .taskFailed t _ => t = "rag"
  | _ => false

/-- Intermediate events produced for the CitationSearch (sonar) task. -/
def Event.isSonarIntermediate : Event → Bool
  | .externalRetrieved _ => true
  | .taskFailed t _ => t = "sonar"
  | _ => false

/-! ## Structural lemmas about the event generator -/

/-- For an initialized sonar module `analyze_query` always returns the
success dictionary built from the fetched citations; in particular it
never raises. -/
theorem analyze_query_true (q : String) (api : Except PyErr SonarData) :
    analyze_query true q api =
      Except.ok (sonar_success_analysis q (fetch_perplexity_sonar_citations api)) := rfl

/-- The sample-data prefix consists only of sample events. -/
theorem sample_events_shapes (q : Query) (env : Env) (e : Event)
    (h : e ∈ sample_events q env) :
    e = Event.sampleLoaded ∨ ∃ m, e = Event.sampleLoadFailed m := by
  unfold sample_events at h
  split at h
  · split at h
    · left; simpa using h
    · right; exact ⟨_, by simpa using h⟩
  · simp at h

/-- An initialized hint module's `get_contextual_hints` always returns a
dictionary; it never raises. -/
theorem gch_true_isOk (q : String) (ic : List InternalCitation) (ec : List Citation)
    (api : Except PyErr (Option String)) :
    ∃ r, get_contextual_hints true q ic ec api = Except.ok r := by
  unfold get_contextual_hints generate_next_step_hint
  by_cases hc : (!ic.isEmpty || !ec.isEmpty) = true <;> simp [hc]

/-- The hint phase emits either nothing or the single hint-generated
status event. -/
theorem hint_step_fst_shapes (q : Query) (env : Env) (ic : List InternalCitation)
    (ec : List Citation) :
    (hint_step q env ic ec).1 = [] ∨ (hint_step q env ic ec).1 = [Event.hintGenerated] := by
  unfold hint_step
  split
  · obtain ⟨⟨resp, flag⟩, hr⟩ := gch_true_isOk q.text ic ec env.hint_api
    rw [hr]; right; rfl
  · left; rfl

/-- Whenever a rag task is scheduled, `asyncio.gather` receives the plain
list returned by the synchronous `query_rag_system` and raises
`TypeError`. -/
theorem gather_step_rag (q : Query) (env : Env)
    (hr : (q.use_rag && env.rag_initialized) = true) :
    gather_step q env = Except.error (PyErr.typeError gatherTypeErrorMsg) := by
  unfold gather_step build_tasks asyncio_gather
  simp [hr, TaskItem.isAwaitable]

/-- With no task selected the gather phase yields empty results. -/
theorem gather_step_none (q : Query) (env : Env)
    (hr : (q.use_rag && env.rag_initialized) = false)
    (hs : (q.use_sonar && env.sonar_initialized) = false) :
    gather_step q env = Except.ok ([], [], []) := by
  unfold gather_step build_tasks
  simp [hr, hs]

/-- With only the sonar task scheduled the gather phase succeeds and emits
the single external-citations progress event. -/
theorem gather_step_sonar (q : Query) (env : Env)
    (hr : (q.use_rag && env.rag_initialized) = false)
    (hs : (q.use_sonar && env.sonar_initialized) = true) :
    gather_step q env =
      Except.ok
        ([Event.externalRetrieved (fetch_perplexity_sonar_citations env.sonar_api).length],
          [], fetch_perplexity_sonar_citations env.sonar_api) := by
  unfold gather_step build_tasks
  simp only [hr, hs, Bool.false_eq_true, if_false, if_true, List.nil_append,
    analyze_query_true]
  simp [asyncio_gather, TaskItem.isAwaitable, process_results,
    sonar_success_analysis]

/-- Every run of the event generator is either the fatal tail (the gather
`TypeError`) or the completed tail with at most one sonar progress event
in between. -/
theorem event_generator_cases (q : Query) (env : Env) :
    event_generator q env = sample_events q env ++ [Event.fatal gatherTypeErrorMsg] ∨
    ∃ tevs ic ec p,
      event_generator q env =
        sample_events q env ++ tevs ++ (hint_step q env ic ec).1 ++ [Event.completed p] ∧
      (tevs = [] ∨ ∃ n, tevs = [Event.externalRetrieved n]) := by
  by_cases hr : (q.use_rag && env.rag_initialized) = true
  · left
    unfold event_generator
    rw [gather_step_rag q env hr]
    rfl
  · rw [Bool.not_eq_true] at hr
    right
    by_cases hs : (q.use_sonar && env.sonar_initialized) = true
    · exact ⟨_, _, _, _,
        by unfold event_generator; rw [gather_step_sonar q env hr hs],
        Or.inr ⟨_, rfl⟩⟩
    · rw [Bool.not_eq_true] at hs
      exact ⟨_, _, _, _,
        by unfold event_generator; rw [gather_step_none q env hr hs],
        Or.inl rfl⟩

/-- Shape of every event the generator can emit: sample events, the sonar
progress event, the hint status event, the completed payload or the fatal
gather event.  In particular no rag progress event, no task-error event
and no hint-error event is reachable. -/
theorem event_generator_shapes (q : Query) (env : Env) (e : Event)
    (h : e ∈ event_generator q env) :
    e = Event.sampleLoaded ∨ (∃ m, e = Event.sampleLoadFailed m) ∨
    (∃ n, e = Event.externalRetrieved n) ∨ e = Event.hintGenerated ∨
    (∃ p, e = Event.completed p) ∨ e = Event.fatal gatherTypeErrorMsg := by
  rcases event_generator_cases q env with hcase | ⟨tevs, ic, ec, p, hcase, htevs⟩
  · rw [hcase] at h
    rcases List.mem_append.1 h with hm | hm
    · rcases sample_events_shapes q env e hm with h1 | ⟨m, h1⟩
      · exact Or.inl h1
      · exact Or.inr (Or.inl ⟨m, h1⟩)
    · have : e = Event.fatal gatherTypeErrorMsg := by simpa using hm
      exact Or.inr (Or.inr (Or.inr (Or.inr (Or.inr this))))
  · rw [hcase] at h
    rcases List.mem_append.1 h with hm | hm
    · rcases List.mem_append.1 hm with hm2 | hm2
      · rcases List.mem_append.1 hm2 with hm3 | hm3
        · rcases sample_events_shapes q env e hm3 with h1 | ⟨m, h1⟩
          · exact Or.inl h1
          · exact Or.inr (Or.inl ⟨m, h1⟩)
        · rcases htevs with ht | ⟨n, ht⟩
          · rw [ht] at hm3; simp at hm3
          · rw [ht] at hm3
            have : e = Event.externalRetrieved n := by simpa using hm3
            exact Or.inr (Or.inr (Or.inl ⟨n, this⟩))
      · rcases hint_step_fst_shapes q env ic ec with hh | hh
        · rw [hh] at hm2; simp at hm2
        · rw [hh] at hm2
          have : e = Event.hintGenerated := by simpa using hm2
          exact Or.inr (Or.inr (Or.inr (Or.inl this)))
    · have : e = Event.completed p := by simpa using hm
      exact Or.inr (Or.inr (Or.inr (Or.inr (Or.inl ⟨p, this⟩))))

/-- The sample prefix contains no terminal event. -/
theorem countP_terminal_sample (q : Query) (env : Env) :
    (sample_events q env).countP (fun e => e.isTerminal) = 0 := by
  rw [List.countP_eq_zero]
  intro e he
  rcases sample_events_shapes q env e he with h | ⟨m, h⟩ <;> subst h <;>
    simp [Event.isTerminal]

/-- Every run of the event generator contains exactly one terminal
event. -/
theorem event_generator_one_terminal (q : Query) (env : Env) :
    (event_generator q env).countP (fun e => e.isTerminal) = 1 := by
  rcases event_generator_cases q env with hcase | ⟨tevs, ic, ec, p, hcase, htevs⟩ <;>
    rw [hcase]
  · rw [List.countP_append, countP_terminal_sample]
    rfl
  · have h1 : tevs.countP (fun e => e.isTerminal) = 0 := by
      rcases htevs with h | ⟨n, h⟩ <;> subst h <;> rfl
    have h2 : ((hint_step q env ic ec).1).countP (fun e => e.isTerminal) = 0 := by
      rcases hint_step_fst_shapes q env ic ec with h | h <;> rw [h] <;> rfl
    rw [List.countP_append, List.countP_append, List.countP_append,
      countP_terminal_sample, h1, h2]
    rfl

/-- No task-error event of any kind is reachable: the rag one because a
scheduled rag task aborts the stream before result processing, the sonar
one because `analyze_query` never raises. -/
theorem taskFailed_not_mem (q : Query) (env : Env) (t d : String) :
    Event.taskFailed t d ∉ event_generator q env := by
  intro h
  rcases event_generator_shapes q env _ h with h1 | ⟨m, h1⟩ | ⟨n, h1⟩ | h1 | ⟨p, h1⟩ | h1 <;>
    simp at h1

/-- No event of a run is a rag intermediate event. -/
theorem ragIntermediate_false_of_mem (q : Query) (env : Env) (e : Event)
    (h : e ∈ event_generator q env) : e.isRagIntermediate = false := by
  rcases event_generator_shapes q env e h with h1 | ⟨m, h1⟩ | ⟨n, h1⟩ | h1 | ⟨p, h1⟩ | h1 <;>
    subst h1 <;> simp [Event.isRagIntermediate]

/-! ## Claim C1 -/

/-- Failing input of claim C1: retrieval and citation search enabled and
initialized, both backends failing. -/
def c1Query : Query :=
  { text := "What are the GDPR breach notification deadlines?"
    use_rag := true
    use_sonar := true
    use_hints := true
    load_sample_data := false }

def c1Env : Env :=
  { rag_initialized := true
    sonar_initialized := true
    hint_initialized := true
    rag_backend := Except.error (PyErr.otherError "vector search unavailable")
    sonar_api := Except.error (PyErr.clientError "connection reset")
    hint_api := Except.error (PyErr.timeoutError "request timed out")
    sample_load := Except.ok () }

/-- C1: the claim states that with retrieval and citation search enabled
and both backends failing, the stream ends with the completed payload
carrying empty citation lists.  The code does the opposite: because
`query_rag_system` is synchronous, its plain list reaches
`asyncio.gather`, which raises `TypeError`, and the stream consists of the
single fatal error event; no completed payload is emitted at all. -/
theorem claim_C1_both_backends_fail_ends_fatal (p : FinalPayload) :
    chat_endpoint c1Query c1Env = Except.ok [Event.fatal gatherTypeErrorMsg] ∧
    Event.completed p ∉ event_generator c1Query c1Env := by
  refine ⟨by decide, ?_⟩
  intro h
  rw [show event_generator c1Query c1Env = [Event.fatal gatherTypeErrorMsg] from by decide] at h
  simp at h

/-! ## Claim C2 -/

/-- C2: every accepted request's event sequence contains exactly one
terminal event, and all rag intermediate events precede all sonar
intermediate events (the filtered subsequence of intermediate events
splits as the rag part followed by the sonar part). -/
theorem claim_C2_one_terminal_and_order (q : Query) (env : Env) (evs : List Event)
    (h : chat_endpoint q env = Except.ok evs) :
    evs.countP (fun e => e.isTerminal) = 1 ∧
    evs.filter (fun e => e.isRagIntermediate) ++ evs.filter (fun e => e.isSonarIntermediate) =
      evs.filter (fun e => e.isRagIntermediate || e.isSonarIntermediate) := by
  have hevs : evs = event_generator q env := by
    unfold chat_endpoint at h
    split at h
    · exact absurd h (by simp)
    · exact (Except.ok.inj h).symm
  subst hevs
  refine ⟨event_generator_one_terminal q env, ?_⟩
  have hfil : (event_generator q env).filter (fun e => e.isRagIntermediate) = [] := by
    rw [List.filter_eq_nil_iff]
    intro a ha
    simp [ragIntermediate_false_of_mem q env a ha]
  rw [hfil, List.nil_append]
  apply List.filter_congr
  intro a ha
  rw [ragIntermediate_false_of_mem q env a ha, Bool.false_or]

def c2wQuery : Query :=
  { text := "Explain GDPR data subject rights"
    use_rag := false
    use_sonar := true
    use_hints := true
    load_sample_data := false }

def c2wEnv : Env :=
  { rag_initialized := true
    sonar_initialized := true
    hint_initialized := true
    rag_backend := Except.error (PyErr.otherError "unused")
    sonar_api := Except.ok
      { choices := [{ tool_outputs := none
                      sources := some [{ title := some "EU Commission GDPR guidance"
                                         name := none
                                         url := some "https://europa.eu/info"
                                         date := none }]
                      content := some "See the guidance." }] }
    hint_api := Except.ok (some " Review Article 15 access requests. ")
    sample_load := Except.ok () }

def c2wEvents : List Event := event_generator c2wQuery c2wEnv

/-- Witness for C2 at a concrete accepted request. -/
theorem claim_C2_one_terminal_and_order_witness :
    c2wEvents.countP (fun e => e.isTerminal) = 1 ∧
    c2wEvents.filter (fun e => e.isRagIntermediate) ++
        c2wEvents.filter (fun e => e.isSonarIntermediate) =
      c2wEvents.filter (fun e => e.isRagIntermediate || e.isSonarIntermediate) :=
  claim_C2_one_terminal_and_order c2wQuery c2wEnv c2wEvents (by decide)

/-! ## Claim C6 -/

/-- Failing input of claim C6: retrieval enabled and initialized, its
backend raising internally. -/
def c6Query : Query :=
  { text := "Summarize SOX section 404 duties"
    use_rag := true
    use_sonar := false
    use_hints := true
    load_sample_data := false }

def c6Env : Env :=
  { rag_initialized := true
    sonar_initialized := true
    hint_initialized := true
    rag_backend := Except.error (PyErr.otherError "embedding model failure")
    sonar_api := Except.error (PyErr.clientError "unused")
    hint_api := Except.ok none
    sample_load := Except.ok () }

/-- C6: the claim states that a raising retrieval task yields a completed
payload with empty `internal_citations` and exactly one rag task-error
event.  In the code the rag task-error event is unreachable on every
input, and on the failing input (retrieval enabled, backend failing) the
stream is the single fatal event with no completed payload. -/
theorem claim_C6_rag_taskerror_unreachable (q : Query) (env : Env) (d : String) :
    Event.taskFailed "rag" d ∉ event_generator q env ∧
    event_generator c6Query c6Env = [Event.fatal gatherTypeErrorMsg] :=
  ⟨taskFailed_not_mem q env "rag" d, by decide⟩

/-! ## Claim C3 -/

/-- C3: a query whose text is empty or whitespace-only is rejected with
HTTP 400 by both endpoints, before any task is created and before any
stream event is produced (the `Except.error` return carries no event
list). -/
theorem claim_C3_blank_query_rejected (q : Query) (env : Env)
    (h : pyBlank q.text.data = true) :
    chat_endpoint q env =
      Except.error { status_code := 400, detail := "Query text cannot be empty" } ∧
    process_query q env =
      Except.error { status_code := 400, detail := "Query text cannot be empty" } := by
  constructor
  · unfold chat_endpoint
    rw [if_pos h]
  · unfold process_query
    rw [if_pos h]

def c3Query : Query :=
  { text := " \t  "
    use_rag := true
    use_sonar := true
    use_hints := true
    load_sample_data := false }

def c3Env : Env :=
  { rag_initialized := true
    sonar_initialized := true
    hint_initialized := true
    rag_backend := Except.ok []
    sonar_api := Except.error (PyErr.clientError "unused")
    hint_api := Except.ok none
    sample_load := Except.ok () }

/-- Witness for C3 at a whitespace-only query. -/
theorem claim_C3_blank_query_rejected_witness :
    chat_endpoint c3Query c3Env =
      Except.error { status_code := 400, detail := "Query text cannot be empty" } ∧
    process_query c3Query c3Env =
      Except.error { status_code := 400, detail := "Query text cannot be empty" } :=
  claim_C3_blank_query_rejected c3Query c3Env (by decide)

/-! ## Claim C4 -/

/-- C4: the classifier is the first-match evaluation of the ordered rule
table SEC keywords, GDPR keywords, SOX keywords, url domains, compliance
keywords, default; and the title `"SEC GDPR filing"` classifies as SEC for
every url. -/
theorem claim_C4_classifier_order (t u : String) :
    determine_citation_type t u = some (citation_type_spec t u) ∧
    determine_citation_type "SEC GDPR filing" u = some "SEC" := by
  constructor
  · simp only [determine_citation_type, citation_type_spec, citation_type_rules,
      first_matching_type]
    split_ifs <;> simp_all
  · have hc : ctSecKw (pyLower ("SEC GDPR filing").data) = true := by decide
    simp [determine_citation_type, hc]

/-! ## Claim C5 -/

/-- The concrete answer text of the claim. -/
def c5text : String := "Please see GDPR Article 17 and SOX Section 302 for details."

/-- A parsed message whose free-text answer is `c5text`; the structured
branches are arbitrary. -/
def c5msg (tos : Option (List ToolOutput)) (srcs : Option (List RawCitation)) :
    SonarMessage :=
  { tool_outputs := tos, sources := srcs, content := some c5text }

/-- `List.any` is false when the predicate is false on every element. -/
theorem any_eq_false_of_forall {α : Type} (p : α → Bool) (l : List α)
    (h : ∀ x ∈ l, p x = false) : l.any p = false := by
  induction l with
  | nil => rfl
  | cons a t ih =>
    simp only [List.any_cons, Bool.or_eq_false_iff]
    exact ⟨h a (by simp), ih (fun x hx => h x (by simp [hx]))⟩

/-- The regulatory-reference scan over `c5text` appends exactly the two
synthetic records to any existing list that does not already contain the
two matches as case-insensitive title substrings. -/
theorem scan_appends_two_refs (bcs : List Citation)
    (h : ∀ c ∈ bcs,
      strContains (pyLower c.title.data) (pyLower ("GDPR Article 17").data) = false ∧
      strContains (pyLower c.title.data) (pyLower ("SOX Section 302").data) = false) :
    appendRegulatoryRefs bcs c5text.data =
      bcs ++ [regRefRecord ("GDPR Article 17").data,
        regRefRecord ("SOX Section 302").data] := by
  have hsec : findAll matchSEC c5text.data = [] := by decide
  have hgdpr : findAll matchGDPR c5text.data = [("GDPR Article 17").data] := by decide
  have hsox : findAll matchSOX c5text.data = [("SOX Section 302").data] := by decide
  have hreg : findAll matchRegulation c5text.data = [] := by decide
  unfold appendRegulatoryRefs citation_scan_matchers
  simp only [List.foldl_cons, List.foldl_nil, hsec, hgdpr, hsox, hreg]
  have h1 : (bcs.any fun cite =>
      strContains (pyLower cite.title.data) (pyLower ("GDPR Article 17").data)) = false :=
    any_eq_false_of_forall _ _ (fun c hc => (h c hc).1)
  have h2a : ([regRefRecord ("GDPR Article 17").data].any fun cite =>
      strContains (pyLower cite.title.data) (pyLower ("SOX Section 302").data)) = false := by
    decide
  have h2b : (bcs.any fun cite =>
      strContains (pyLower cite.title.data) (pyLower ("SOX Section 302").data)) = false :=
    any_eq_false_of_forall _ _ (fun c hc => (h c hc).2)
  have hstep1 : addRegRef bcs ("GDPR Article 17").data =
      bcs ++ [regRefRecord ("GDPR Article 17").data] := by
    unfold addRegRef
    rw [h1]
    simp
  have hstep2 : addRegRef (bcs ++ [regRefRecord ("GDPR Article 17").data])
      ("SOX Section 302").data =
      bcs ++ [regRefRecord ("GDPR Article 17").data] ++
        [regRefRecord ("SOX Section 302").data] := by
    unfold addRegRef
    rw [List.any_append, h2a, h2b]
    simp
  rw [hstep1, hstep2, List.append_assoc]
  rfl

/-- C5: the regulatory-reference scan runs whatever the structured
branches contained, and on the claim's answer text it appends exactly the
two synthetic records, deduplicated against the existing titles. -/
theorem claim_C5_regulatory_scan (tos : Option (List ToolOutput))
    (srcs : Option (List RawCitation))
    (h : ∀ c ∈ branch_citations (c5msg tos srcs),
      strContains (pyLower c.title.data) (pyLower ("GDPR Article 17").data) = false ∧
      strContains (pyLower c.title.data) (pyLower ("SOX Section 302").data) = false) :
    parseSonarMessage (c5msg tos srcs) =
      branch_citations (c5msg tos srcs) ++
        [regRefRecord ("GDPR Article 17").data,
          regRefRecord ("SOX Section 302").data] := by
  unfold parseSonarMessage
  have hco : (((c5msg tos srcs).content).getD "").data = c5text.data := rfl
  rw [hco]
  exact scan_appends_two_refs _ h

def c5wSources : List RawCitation :=
  [{ title := some "EU Commission overview"
     name := none
     url := some "https://europa.eu/overview"
     date := none }]

/-- Witness for C5 with a non-empty `sources` branch. -/
theorem claim_C5_regulatory_scan_witness :
    parseSonarMessage (c5msg none (some c5wSources)) =
      branch_citations (c5msg none (some c5wSources)) ++
        [regRefRecord ("GDPR Article 17").data,
          regRefRecord ("SOX Section 302").data] :=
  claim_C5_regulatory_scan none (some c5wSources) (by decide)

/-! ## Claim C7 -/

/-- C7: `get_contextual_hints` returns `next_step_hint = none` exactly
when both citation lists are empty; the model-generation call is made
exactly when one list is non-empty (so never in the no-citations case);
and `basic_hints` is always the rule-table result. -/
theorem claim_C7_hint_nullness (q : String) (internal : List InternalCitation)
    (external : List Citation) (api : Except PyErr (Option String))
    (r : HintResponse) (flag : Bool)
    (h : get_contextual_hints true q internal external api = Except.ok (r, flag)) :
    (r.next_step_hint = none ↔ (internal = [] ∧ external = [])) ∧
    flag = (!internal.isEmpty || !external.isEmpty) ∧
    r.basic_hints = get_hints q := by
  unfold get_contextual_hints generate_next_step_hint at h
  by_cases hc : (!internal.isEmpty || !external.isEmpty) = true
  · simp [hc] at h
    obtain ⟨hr, hf⟩ := h
    subst hf
    subst hr
    refine ⟨?_, hc.symm, rfl⟩
    constructor
    · intro hn
      simp at hn
    · rintro ⟨h1, h2⟩
      subst h1
      subst h2
      simp at hc
  · simp [hc] at h
    obtain ⟨hr, hf⟩ := h
    subst hf
    subst hr
    rw [Bool.not_eq_true, Bool.or_eq_false_iff] at hc
    obtain ⟨h1, h2⟩ := hc
    rw [Bool.not_eq_false'] at h1 h2
    have hie : internal = [] ∧ external = [] :=
      ⟨List.isEmpty_iff.1 h1, List.isEmpty_iff.1 h2⟩
    refine ⟨by simp [hie], ?_, rfl⟩
    rw [h1, h2]
    rfl

def c7Resp : HintResponse :=
  { basic_hints := fallback_hints
    next_step_hint := none
    query := "Anything new?"
    error := none }

/-- Witness for C7 at the no-citations input. -/
theorem claim_C7_hint_nullness_witness :
    (c7Resp.next_step_hint = none ↔
      (([] : List InternalCitation) = [] ∧ ([] : List Citation) = [])) ∧
    false = (!(([] : List InternalCitation)).isEmpty || !(([] : List Citation)).isEmpty) ∧
    c7Resp.basic_hints = get_hints "Anything new?" :=
  claim_C7_hint_nullness "Anything new?" [] [] (Except.ok none) c7Resp false (by decide)

/-! ## Claims C8 and C10: the rule-based hints -/

/-- Every variant of the GDPR block is a three-element list. -/
theorem gdpr_block_shape (ql : List Char) : ∃ a b c, gdpr_block ql = [a, b, c] := by
  unfold gdpr_block
  split_ifs <;> exact ⟨_, _, _, rfl⟩

/-- Every variant of the SOX block is a three-element list. -/
theorem sox_block_shape (ql : List Char) : ∃ a b c, sox_block ql = [a, b, c] := by
  unfold sox_block
  split_ifs <;> exact ⟨_, _, _, rfl⟩

/-- C8: `get_hints` returns at most three hints; the result is exactly the
first matching category block (GDPR before SEC before SOX, fallback
otherwise); and the GDPR-breach query returns the breach triplet. -/
theorem claim_C8_first_category_wins (q : String) :
    (get_hints q).length ≤ 3 ∧
    get_hints q =
      (if gdprCond (pyLower q.data) then gdpr_block (pyLower q.data)
       else if secCond (pyLower q.data) then sec_filing_hints
       else if soxCond (pyLower q.data) then sox_block (pyLower q.data)
       else fallback_hints) ∧
    get_hints "How do we handle a GDPR breach?" = gdpr_breach_hints := by
  obtain ⟨a, b, c, hg⟩ := gdpr_block_shape (pyLower q.data)
  obtain ⟨d, e, f, hsx⟩ := sox_block_shape (pyLower q.data)
  refine ⟨?_, ?_, by decide⟩
  · simp only [get_hints, List.length_take]
    exact min_le_left _ _
  · simp only [get_hints]
    by_cases h1 : gdprCond (pyLower q.data) = true <;>
      by_cases h2 : secCond (pyLower q.data) = true <;>
      by_cases h3 : soxCond (pyLower q.data) = true <;>
      simp [h1, h2, h3, hg, hsx, sec_filing_hints, fallback_hints]

/-- C10: for an initialized hint module, `get_hints` returns exactly three
hints on every query. -/
theorem claim_C10_exactly_three_hints (q : String) :
    get_hints_checked true q = Except.ok (get_hints q) ∧
    (get_hints q).length = 3 := by
  obtain ⟨a, b, c, hg⟩ := gdpr_block_shape (pyLower q.data)
  obtain ⟨d, e, f, hsx⟩ := sox_block_shape (pyLower q.data)
  refine ⟨rfl, ?_⟩
  simp only [get_hints]
  by_cases h1 : gdprCond (pyLower q.data) = true <;>
    by_cases h2 : secCond (pyLower q.data) = true <;>
    by_cases h3 : soxCond (pyLower q.data) = true <;>
    simp [h1, h2, h3, hg, hsx, sec_filing_hints, fallback_hints]

/-! ## Claim C9 -/

/-- C9 counterexample: on an upstream network failure the initialized
module returns the success dictionary with zero citations — its
`analysis_summary` is the success one and it carries no `error` field,
contrary to the claim's "with an error field". -/
theorem claim_C9_error_field_counterexample :
    analyze_query true "What are PCI DSS requirements?"
        (Except.error (PyErr.clientError "Connection reset by peer")) =
      Except.ok (sonar_success_analysis "What are PCI DSS requirements?" []) ∧
    (sonar_success_analysis "What are PCI DSS requirements?" []).error = none ∧
    (sonar_success_analysis "What are PCI DSS requirements?" []).analysis_summary =
      "Found 0 relevant compliance citations" :=
  ⟨rfl, rfl, by decide⟩

/-- C9 (amended): an initialized module's `analyze_query` never raises; on
any upstream failure it returns the dictionary with empty `citations` and
`citations_found = 0` but no `error` field (the error-dictionary branch is
unreachable because the fetch swallows every exception); and the sonar
task-error event is unreachable in the orchestrator. -/
theorem claim_C9_analyze_never_raises (q : String) (e : PyErr)
    (api : Except PyErr SonarData) (q2 : Query) (env : Env) (d : String) :
    analyze_query true q api =
      Except.ok (sonar_success_analysis q (fetch_perplexity_sonar_citations api)) ∧
    analyze_query true q (Except.error e) =
      Except.ok (sonar_success_analysis q []) ∧
    (sonar_success_analysis q []).citations = [] ∧
    (sonar_success_analysis q []).citations_found = 0 ∧
    (sonar_success_analysis q []).error = none ∧
    Event.taskFailed "sonar" d ∉ event_generator q2 env :=
  ⟨rfl, rfl, rfl, rfl, rfl, taskFailed_not_mem q2 env "sonar" d⟩

end RCA
